import Mathlib

/-!
Shallow embedding of `src/rfm95w/rfm95w.ino` (LoRa transmitter firmware).

The sketch drives an RFM95 radio over SPI.  We model the hardware the
core logic touches as an explicit state:

* the radio's register file (`regs`, a byte per address, as the SPI
  read/write helpers see it),
* the global `totalPacketCount` and `isPaused` variables,
* the two digital output lines the sketch drives (`SWITCH_PIN`,
  `LED_PIN`).

Every embedded function returns the new state together with a trace of
externally visible events (SPI transactions, digital writes, delays,
power-down steps, radio-driver calls, console output), in the order the
source performs them.  Environment responses the sketch branches on
(`rf95.send`, `rf95.init`, availability of a serial line) are passed in
as parameters.
-/

/-- Pin numbers from the sketch's `#define` block. -/
def RFM95_RST : Nat := 9

/-- LED pin (`LED_PIN 5`). -/
def LED_PIN : Nat := 5

/-- Load-switch pin (`SWITCH_PIN 7`). -/
def SWITCH_PIN : Nat := 7

/-- Console messages the sketch prints, abstracted as tags (the exact
text is irrelevant to the claims; one tag per distinct `Serial.print`
string in the source). -/
inductive SerialMsg where
  | bandwidthSetPrefix
  | spreadingFactorSetPrefix
  | preparing
  | messageSent
  | messageFailed
  | sleepEntering
  | rf95InitFailed
  | rf95InitOk
  | processPaused
  | processResumed
  deriving DecidableEq, Repr

/-- Externally visible events, in source order. -/
inductive Event where
  | spiRead (addr val : Nat)
  | spiWrite (addr val : Nat)
  | pinModeOutput (pin : Nat)
  | digitalWrite (pin : Nat) (high : Bool)
  | delayMs (ms : Nat)
  | powerDownStep (ms : Nat)
  | radioSetModeIdle
  | radioSleep
  | radioSend (payload : List Nat) (ok : Bool)
  | radioInit (ok : Bool)
  | radioSetFrequency (mhz : Nat)
  | radioSetTxPower (dbm : Nat) (highPower : Bool)
  | serialPrint (m : SerialMsg)
  | serialPrintln (m : SerialMsg)
  | serialPrintlnInt (i : Int)
  | displayMessage (payload : List Nat)
  | displayPacketCount (n : Nat)
  deriving DecidableEq, Repr

/-- Radio register file: a byte per address. -/
def RegFile : Type := Nat → Nat

/-- Register write (`rf95.spiWrite`): stores a byte (`uint8_t`
truncation made explicit by `% 256`). -/
def writeReg (r : RegFile) (addr v : Nat) : RegFile :=
  fun x => if x = addr then v % 256 else r x

/-- The mutable state of the sketch together with the hardware it
drives. -/
structure SysState where
  regs : RegFile
  totalPacketCount : Nat
  isPaused : Bool
  switchPin : Bool
  ledPin : Bool

/-- State at power-on: registers all zero, counter zero, not paused,
both output lines low. -/
def initState : SysState :=
  { regs := fun _ => 0
    totalPacketCount := 0
    isPaused := false
    switchPin := false
    ledPin := false }

/-- The fixed 8-byte payload `message`. -/
def message : List Nat := [0xA7, 0xF1, 0xD9, 0x2A, 0x82, 0xC8, 0xD8, 0xFE]

/-- Bandwidth lookup table `bwValues` from `setBandwidth`. -/
def bwValues : List Nat := [0x00, 0x10, 0x20, 0x30, 0x40, 0x50, 0x60, 0x70, 0x80, 0x90]

/-- Embedding of `setBandwidth(int bwCode)` (rfm95w.ino lines 188-198):
when `0 <= bwCode < 10`, read `RegModemConfig1` (0x1D), clear the high
nibble, OR in `bwValues[bwCode]`, write back, and print; otherwise do
nothing at all. -/
def setBandwidth (bwCode : Int) (s : SysState) : SysState × List Event :=
  if 0 ≤ bwCode ∧ bwCode < 10 then
    let modemConfig1 := s.regs 0x1D
    let v := (modemConfig1 &&& 0x0F) ||| bwValues.getD bwCode.toNat 0
    ({ s with regs := writeReg s.regs 0x1D v },
      [Event.spiRead 0x1D modemConfig1, Event.spiWrite 0x1D v,
       Event.serialPrint SerialMsg.bandwidthSetPrefix, Event.serialPrintlnInt bwCode])
  else (s, [])

/-- Embedding of `setSpreadingFactor(int sf)` (rfm95w.ino lines
201-210): when `6 <= sf <= 12`, read `RegModemConfig2` (0x1E), clear
the high nibble (`&= 0x0F`), OR in `sf << 4`, write back, and print;
otherwise do nothing at all. -/
def setSpreadingFactor (sf : Int) (s : SysState) : SysState × List Event :=
  if 6 ≤ sf ∧ sf ≤ 12 then
    let modemConfig2 := s.regs 0x1E
    let v := (modemConfig2 &&& 0x0F) ||| (sf.toNat <<< 4)
    ({ s with regs := writeReg s.regs 0x1E v },
      [Event.spiRead 0x1E modemConfig2, Event.spiWrite 0x1E v,
       Event.serialPrint SerialMsg.spreadingFactorSetPrefix, Event.serialPrintlnInt sf])
  else (s, [])

/-- Embedding of the CRC-enable block (rfm95w.ino lines 131-134, inside
`initializeRF95Module`): read `RegModemConfig2` (0x1E), set bit 2
(`CRC_ON`), and write the value back unconditionally. -/
def enableCRC (s : SysState) : SysState × List Event :=
  let modemConfig2 := s.regs 0x1E
  let v := modemConfig2 ||| (1 <<< 2)
  ({ s with regs := writeReg s.regs 0x1E v },
    [Event.spiRead 0x1E modemConfig2, Event.spiWrite 0x1E v])

/-- Configuration errors named by the specification (section 7). -/
inductive ConfigError where
  | outOfRange
  deriving DecidableEq, Repr

/-- Design-level contract of `setBandwidth` as the specification words
it (section 4.2): result signature `Result<(), ConfigError>`, failing
with `OutOfRange` for a code outside `[0,9]`, otherwise the
read-modify-write result on the register byte.  Stated from the spec's
words, to be compared with the source-embedded `setBandwidth`. -/
def setBandwidthSpec (code : Int) (reg : Nat) : Except ConfigError Nat :=
  if 0 ≤ code ∧ code ≤ 9 then
    Except.ok ((reg &&& 0x0F) ||| (code.toNat * 0x10))
  else
    Except.error ConfigError.outOfRange

/-- Design-level contract of `setSpreadingFactor` as the specification
words it (section 4.2): fails with `OutOfRange` for `sf` outside
`[6,12]`, otherwise the read-modify-write result on the register
byte.  Stated from the spec's words, to be compared with the
source-embedded `setSpreadingFactor`. -/
def setSpreadingFactorSpec (sf : Int) (reg : Nat) : Except ConfigError Nat :=
  if 6 ≤ sf ∧ sf ≤ 12 then
    Except.ok ((reg &&& 0x0F) ||| (sf.toNat * 16))
  else
    Except.error ConfigError.outOfRange

/-- Whitespace test matching `isspace` as used by Arduino
`String::trim` (space, tab, newline, vertical tab, form feed,
carriage return). -/
def isSpaceChar (c : Char) : Bool :=
  c == ' ' || c == '\t' || c == '\n' || c == '\x0B' || c == '\x0C' || c == '\r'

/-- Arduino `String::trim()`: drop leading and trailing whitespace. -/
def trimLine (cs : List Char) : List Char :=
  ((cs.dropWhile isSpaceChar).reverse.dropWhile isSpaceChar).reverse

/-- ASCII upcase of one character, as case-insensitive comparison
normalizes it. -/
def toUpperAscii (c : Char) : Char :=
  if 'a' ≤ c ∧ c ≤ 'z' then Char.ofNat (c.toNat - 32) else c

/-- Arduino `String::equalsIgnoreCase`. -/
def eqIgnoreCase (a b : List Char) : Bool :=
  a.map toUpperAscii == b.map toUpperAscii

/-- The command literal `"STOP"`. -/
def cmdSTOP : List Char := ['S', 'T', 'O', 'P']

/-- The command literal `"GO"`. -/
def cmdGO : List Char := ['G', 'O']

/-- Embedding of `checkForStopOrGo()` (rfm95w.ino lines 244-256).
`input` is the pending console line, if `Serial.available()`:
`readStringUntil` then `trim`, compare case-insensitively against
`"STOP"` and `"GO"`, set `isPaused` accordingly; any other line is
ignored. -/
def checkForStopOrGo (input : Option (List Char)) (s : SysState) : SysState × List Event :=
  match input with
  | none => (s, [])
  | some line =>
    let t := trimLine line
    if eqIgnoreCase t cmdSTOP then
      ({ s with isPaused := true }, [Event.serialPrintln SerialMsg.processPaused])
    else if eqIgnoreCase t cmdGO then
      ({ s with isPaused := false }, [Event.serialPrintln SerialMsg.processResumed])
    else (s, [])

/-- Embedding of `prepareTransmission()` (rfm95w.ino lines 76-81):
print, set the radio to standby, drive the load switch high, wait
1000 ms. -/
def prepareTransmission (s : SysState) : SysState × List Event :=
  ({ s with switchPin := true },
    [Event.serialPrintln SerialMsg.preparing, Event.radioSetModeIdle,
     Event.digitalWrite SWITCH_PIN true, Event.delayMs 1000])

/-- Embedding of `blinkLED(int duration)` (rfm95w.ino lines 219-223):
LED high, delay, LED low. -/
def blinkLED (duration : Nat) (s : SysState) : SysState × List Event :=
  ({ s with ledPin := false },
    [Event.digitalWrite LED_PIN true, Event.delayMs duration,
     Event.digitalWrite LED_PIN false])

/-- Embedding of `sendMessage()` (rfm95w.ino lines 84-94).  `sendOk` is
the boolean `rf95.send` returns.  On success: print, `blinkLED(500)`,
increment `totalPacketCount`, display the count.  On failure: print
only. -/
def sendMessage (sendOk : Bool) (s : SysState) : SysState × List Event :=
  if sendOk then
    let r := blinkLED 500 s
    let s2 := { r.1 with totalPacketCount := r.1.totalPacketCount + 1 }
    (s2,
      [Event.displayMessage message, Event.radioSend message true,
       Event.serialPrintln SerialMsg.messageSent] ++ r.2 ++
       [Event.displayPacketCount s2.totalPacketCount])
  else
    (s, [Event.displayMessage message, Event.radioSend message false,
         Event.serialPrintln SerialMsg.messageFailed])

/-- Embedding of `waitForNextCycle()` (rfm95w.ino lines 97-107): print,
radio to sleep, switch low, LED low, then 12 `LowPower.powerDown`
steps of 250 ms each. -/
def waitForNextCycle (s : SysState) : SysState × List Event :=
  ({ s with switchPin := false, ledPin := false },
    [Event.serialPrintln SerialMsg.sleepEntering, Event.radioSleep,
     Event.digitalWrite SWITCH_PIN false, Event.digitalWrite LED_PIN false] ++
     List.replicate 12 (Event.powerDownStep 250))

/-- Embedding of one iteration of `loop()` (rfm95w.ino lines 50-58):
check for STOP/GO, then, if not paused, prepare, send and sleep. -/
def loopIter (input : Option (List Char)) (sendOk : Bool) (s : SysState) :
    SysState × List Event :=
  let r1 := checkForStopOrGo input s
  if r1.1.isPaused then r1
  else
    let r2 := prepareTransmission r1.1
    let r3 := sendMessage sendOk r2.1
    let r4 := waitForNextCycle r3.1
    (r4.1, r1.2 ++ r2.2 ++ r3.2 ++ r4.2)

/-- Result of `initializeRF95Module`: either the process is stuck in
the `while (1);` halt loop (carrying the events performed up to the
halt — nothing ever follows them), or initialization returned with the
new state and its events. -/
inductive InitResult where
  | halted (events : List Event)
  | ok (s : SysState) (events : List Event)

/-- Embedding of `initializeRF95Module()` (rfm95w.ino lines 110-138).
`initOk` is the boolean `rf95.init()` returns.  The reset line is
pulsed (high, low, 10 ms, high, 10 ms) before `init` is called.  If
init fails the sketch prints and enters `while (1);` — modeled by the
`halted` result, after which no further operation runs.  If init
succeeds: frequency, TX power, the two preamble register writes, the
CRC-enable read-modify-write, and the final print. -/
def initializeRF95Module (initOk : Bool) (s : SysState) : InitResult :=
  let pre : List Event :=
    [Event.pinModeOutput RFM95_RST, Event.digitalWrite RFM95_RST true,
     Event.digitalWrite RFM95_RST false, Event.delayMs 10,
     Event.digitalWrite RFM95_RST true, Event.delayMs 10,
     Event.radioInit initOk]
  if initOk then
    let s1 := { s with regs := writeReg (writeReg s.regs 0x20 0x00) 0x21 0x08 }
    let r := enableCRC s1
    InitResult.ok r.1
      (pre ++
        [Event.radioSetFrequency 868, Event.radioSetTxPower 7 false,
         Event.spiWrite 0x20 0x00, Event.spiWrite 0x21 0x08] ++ r.2 ++
        [Event.serialPrintln SerialMsg.rf95InitOk])
  else
    InitResult.halted (pre ++ [Event.serialPrintln SerialMsg.rf95InitFailed])

/-- Event trace of an `InitResult` (what happened up to the halt, or
during a successful initialization). -/
def InitResult.events : InitResult → List Event
  | InitResult.halted es => es
  | InitResult.ok _ es => es

/-- A whole run of the outer loop: fold `loopIter` over a list of
(pending console line, send outcome) pairs. -/
def runLoop (steps : List (Option (List Char) × Bool)) (s : SysState) : SysState :=
  steps.foldl (fun t step => (loopIter step.1 step.2 t).1) s

lemma writeReg_same (r : RegFile) (a v : Nat) : writeReg r a v a = v % 256 := by
  unfold writeReg
  rw [if_pos rfl]

lemma writeReg_other (r : RegFile) (a v x : Nat) (h : x ≠ a) : writeReg r a v x = r x := by
  unfold writeReg
  rw [if_neg h]

lemma and_fifteen (v : Nat) : v &&& 15 = v % 16 := by
  have h := Nat.and_pow_two_sub_one_eq_mod v 4
  norm_num at h
  exact h

lemma mod16_lt (v : Nat) : v % 16 < 16 := Nat.mod_lt v (by norm_num)

lemma setBandwidth_in_range (c : Int) (h0 : 0 ≤ c) (h9 : c < 10) (s : SysState) :
    setBandwidth c s =
      ({ s with regs := writeReg s.regs 0x1D ((s.regs 0x1D &&& 0x0F) ||| bwValues.getD c.toNat 0) },
        [Event.spiRead 0x1D (s.regs 0x1D),
         Event.spiWrite 0x1D ((s.regs 0x1D &&& 0x0F) ||| bwValues.getD c.toNat 0),
         Event.serialPrint SerialMsg.bandwidthSetPrefix, Event.serialPrintlnInt c]) := by
  unfold setBandwidth
  rw [if_pos ⟨h0, h9⟩]

lemma setBandwidth_out_of_range (c : Int) (h : ¬(0 ≤ c ∧ c < 10)) (s : SysState) :
    setBandwidth c s = (s, []) := by
  unfold setBandwidth
  rw [if_neg h]

lemma setSpreadingFactor_in_range (sf : Int) (h6 : 6 ≤ sf) (h12 : sf ≤ 12) (s : SysState) :
    setSpreadingFactor sf s =
      ({ s with regs := writeReg s.regs 0x1E ((s.regs 0x1E &&& 0x0F) ||| (sf.toNat <<< 4)) },
        [Event.spiRead 0x1E (s.regs 0x1E),
         Event.spiWrite 0x1E ((s.regs 0x1E &&& 0x0F) ||| (sf.toNat <<< 4)),
         Event.serialPrint SerialMsg.spreadingFactorSetPrefix, Event.serialPrintlnInt sf]) := by
  unfold setSpreadingFactor
  rw [if_pos ⟨h6, h12⟩]

lemma setSpreadingFactor_out_of_range (sf : Int) (h : ¬(6 ≤ sf ∧ sf ≤ 12)) (s : SysState) :
    setSpreadingFactor sf s = (s, []) := by
  unfold setSpreadingFactor
  rw [if_neg h]

set_option maxRecDepth 8000 in
lemma bw_write_facts : ∀ a < 16, ∀ c < 10,
    ((a ||| bwValues.getD c 0) % 256) % 16 = a ∧
    ((a ||| bwValues.getD c 0) % 256) &&& 0xF0 = c * 0x10 := by
  decide

lemma sf_write_facts : ∀ a < 16, ∀ k, 6 ≤ k → k ≤ 12 →
    ((a ||| (k <<< 4)) % 256) % 16 = a ∧
    ((a ||| (k <<< 4)) % 256) &&& 0xF0 = k <<< 4 := by
  intro a ha k h6 h12
  interval_cases k <;> revert a ha <;> decide

lemma testBit2_of_mod16_eq {x y : Nat} (h : x % 16 = y % 16) :
    Nat.testBit x 2 = Nat.testBit y 2 := by
  have hx := Nat.testBit_mod_two_pow x 4 2
  have hy := Nat.testBit_mod_two_pow y 4 2
  norm_num at hx hy
  rw [← hx, ← hy, h]

/-- C1: Field non-disturbance of configuration writes.  For every
bandwidth code `c ∈ [0,9]`, `setBandwidth c` changes only the high
nibble of register 0x1D (the low nibble of the value written back
equals the low nibble of the value read, and no other register
changes); for every spreading factor `sf ∈ [6,12]`,
`setSpreadingFactor sf` changes only the high nibble of register 0x1E
(the low nibble, including the CRC-enable bit at bit 2, is identical
before and after, and no other register changes). -/
theorem C1_config_writes_preserve_low_nibble
    (c sf : Int) (s t : SysState)
    (hc0 : 0 ≤ c) (hc9 : c < 10) (hsf6 : 6 ≤ sf) (hsf12 : sf ≤ 12) :
    (((setBandwidth c s).1.regs 0x1D) % 16 = s.regs 0x1D % 16 ∧
      ∀ a, a ≠ 0x1D → (setBandwidth c s).1.regs a = s.regs a) ∧
    (((setSpreadingFactor sf t).1.regs 0x1E) % 16 = t.regs 0x1E % 16 ∧
      Nat.testBit ((setSpreadingFactor sf t).1.regs 0x1E) 2 =
        Nat.testBit (t.regs 0x1E) 2 ∧
      ∀ a, a ≠ 0x1E → (setSpreadingFactor sf t).1.regs a = t.regs a) := by
  have hcn : c.toNat < 10 := by omega
  have hs6 : 6 ≤ sf.toNat := by omega
  have hs12 : sf.toNat ≤ 12 := by omega
  rw [setBandwidth_in_range c hc0 hc9 s, setSpreadingFactor_in_range sf hsf6 hsf12 t]
  dsimp only
  have hbw : writeReg s.regs 0x1D ((s.regs 0x1D &&& 0x0F) ||| bwValues.getD c.toNat 0) 0x1D % 16
      = s.regs 0x1D % 16 := by
    rw [writeReg_same, and_fifteen]
    exact (bw_write_facts (s.regs 0x1D % 16) (mod16_lt _) c.toNat hcn).1
  have hsf : writeReg t.regs 0x1E ((t.regs 0x1E &&& 0x0F) ||| (sf.toNat <<< 4)) 0x1E % 16
      = t.regs 0x1E % 16 := by
    rw [writeReg_same, and_fifteen]
    exact (sf_write_facts (t.regs 0x1E % 16) (mod16_lt _) sf.toNat hs6 hs12).1
  refine ⟨⟨hbw, ?_⟩, hsf, testBit2_of_mod16_eq hsf, ?_⟩
  · intro a ha
    exact writeReg_other _ _ _ _ ha
  · intro a ha
    exact writeReg_other _ _ _ _ ha

theorem C1_config_writes_preserve_low_nibble_witness :
    ((setBandwidth 3 initState).1.regs 0x1D) % 16 = initState.regs 0x1D % 16 :=
  (C1_config_writes_preserve_low_nibble 3 7 initState initState
    (by decide) (by decide) (by decide) (by decide)).1.1

/-- C2: Out-of-range configuration calls are rejected.  For every
`c ∉ [0,9]`, `setBandwidth c` performs no register access at all (the
state is returned unchanged with an empty event trace) and the
design-level contract fails with `ConfigError.outOfRange`; symmetrically
for every `sf ∉ [6,12]` and `setSpreadingFactor sf`. -/
theorem C2_out_of_range_rejected
    (c sf : Int) (s t : SysState)
    (hc : ¬(0 ≤ c ∧ c < 10)) (hsf : ¬(6 ≤ sf ∧ sf ≤ 12)) :
    (setBandwidth c s = (s, []) ∧
      setBandwidthSpec c (s.regs 0x1D) = Except.error ConfigError.outOfRange) ∧
    (setSpreadingFactor sf t = (t, []) ∧
      setSpreadingFactorSpec sf (t.regs 0x1E) = Except.error ConfigError.outOfRange) := by
  refine ⟨⟨setBandwidth_out_of_range c hc s, ?_⟩,
          setSpreadingFactor_out_of_range sf hsf t, ?_⟩
  · unfold setBandwidthSpec
    rw [if_neg (by omega)]
  · unfold setSpreadingFactorSpec
    rw [if_neg hsf]

theorem C2_out_of_range_rejected_witness :
    setBandwidth (-1) initState = (initState, []) :=
  (C2_out_of_range_rejected (-1) 13 initState initState
    (by decide) (by decide)).1.1

/-- C4: The bandwidth bit pattern written for code `c` is `c * 0x10`,
taken from the fixed 10-entry lookup table `bwValues`; in particular,
after `setBandwidth 5` the bandwidth field (high nibble of register
0x1D) holds the bit pattern 0x50. -/
theorem C4_bandwidth_pattern_from_table (s : SysState) :
    (∀ c : Nat, c < 10 → bwValues.getD c 0 = c * 0x10) ∧
    (setBandwidth 5 s).1.regs 0x1D &&& 0xF0 = 0x50 := by
  constructor
  · decide
  · rw [setBandwidth_in_range 5 (by decide) (by decide) s]
    dsimp only
    rw [writeReg_same, and_fifteen]
    have h5 : (5 : Int).toNat = 5 := by decide
    rw [h5]
    have h := (bw_write_facts (s.regs 0x1D % 16) (mod16_lt _) 5 (by norm_num)).2
    simpa using h

/-- C9: `setBandwidth` and `setSpreadingFactor` commute.  For every
in-range `c ∈ [0,9]` and `sf ∈ [6,12]`, applying them in either order
yields the same final contents of registers 0x1D and 0x1E, because
each operation reads, modifies and writes only its own register. -/
theorem C9_bandwidth_spreading_commute
    (c sf : Int) (s : SysState)
    (hc0 : 0 ≤ c) (hc9 : c < 10) (hsf6 : 6 ≤ sf) (hsf12 : sf ≤ 12) :
    ((setSpreadingFactor sf (setBandwidth c s).1).1.regs 0x1D =
      (setBandwidth c (setSpreadingFactor sf s).1).1.regs 0x1D) ∧
    ((setSpreadingFactor sf (setBandwidth c s).1).1.regs 0x1E =
      (setBandwidth c (setSpreadingFactor sf s).1).1.regs 0x1E) := by
  rw [setBandwidth_in_range c hc0 hc9 s, setSpreadingFactor_in_range sf hsf6 hsf12 s]
  dsimp only
  rw [setSpreadingFactor_in_range sf hsf6 hsf12, setBandwidth_in_range c hc0 hc9]
  dsimp only
  constructor <;> simp [writeReg]

theorem C9_bandwidth_spreading_commute_witness :
    (setSpreadingFactor 8 (setBandwidth 2 initState).1).1.regs 0x1D =
      (setBandwidth 2 (setSpreadingFactor 8 initState).1).1.regs 0x1D :=
  (C9_bandwidth_spreading_commute 2 8 initState
    (by decide) (by decide) (by decide) (by decide)).1

lemma enableCRC_eq (s : SysState) :
    enableCRC s =
      ({ s with regs := writeReg s.regs 0x1E (s.regs 0x1E ||| 4) },
        [Event.spiRead 0x1E (s.regs 0x1E), Event.spiWrite 0x1E (s.regs 0x1E ||| 4)]) :=
  rfl

lemma testBit2_after_or4 (v : Nat) : Nat.testBit ((v ||| 4) % 256) 2 = true := by
  have h := Nat.testBit_mod_two_pow (v ||| 4) 8 2
  norm_num at h
  rw [h]
  have h4 : Nat.testBit 4 2 = true := by decide
  rw [h4, Bool.or_true]

lemma or4_of_testBit2 {w : Nat} (h : Nat.testBit w 2 = true) : w ||| 4 = w := by
  apply Nat.eq_of_testBit_eq
  intro i
  rw [Nat.testBit_lor]
  by_cases hi : i = 2
  · subst hi
    rw [h, Bool.true_or]
  · have h4 : Nat.testBit 4 i = false := by
      rw [(by norm_num : (4 : Nat) = 2 ^ 2), Nat.testBit_two_pow]
      exact decide_eq_false fun hh => hi hh.symm
    rw [h4, Bool.or_false]

lemma checkForStopOrGo_stop (t : SysState) :
    checkForStopOrGo (some cmdSTOP) t =
      ({ t with isPaused := true }, [Event.serialPrintln SerialMsg.processPaused]) := by
  simp only [checkForStopOrGo]
  rw [if_pos (by decide)]

lemma checkForStopOrGo_go (t : SysState) :
    checkForStopOrGo (some cmdGO) t =
      ({ t with isPaused := false }, [Event.serialPrintln SerialMsg.processResumed]) := by
  simp only [checkForStopOrGo]
  rw [if_neg (by decide), if_pos (by decide)]

lemma checkForStopOrGo_other (t : SysState) (l : List Char)
    (h1 : eqIgnoreCase (trimLine l) cmdSTOP = false)
    (h2 : eqIgnoreCase (trimLine l) cmdGO = false) :
    checkForStopOrGo (some l) t = (t, []) := by
  simp only [checkForStopOrGo]
  rw [if_neg (by simp [h1]), if_neg (by simp [h2])]

lemma checkForStopOrGo_frame (input : Option (List Char)) (s : SysState) :
    (checkForStopOrGo input s).1.totalPacketCount = s.totalPacketCount ∧
    (checkForStopOrGo input s).1.regs = s.regs ∧
    (checkForStopOrGo input s).1.switchPin = s.switchPin ∧
    (checkForStopOrGo input s).1.ledPin = s.ledPin ∧
    ∀ e ∈ (checkForStopOrGo input s).2, ∃ m, e = Event.serialPrintln m := by
  cases input with
  | none => exact ⟨rfl, rfl, rfl, rfl, by intro e he; cases he⟩
  | some line =>
    simp only [checkForStopOrGo]
    by_cases h1 : eqIgnoreCase (trimLine line) cmdSTOP = true
    · rw [if_pos h1]
      exact ⟨rfl, rfl, rfl, rfl, by intro e he; simp at he; exact ⟨_, he⟩⟩
    · rw [if_neg h1]
      by_cases h2 : eqIgnoreCase (trimLine line) cmdGO = true
      · rw [if_pos h2]
        exact ⟨rfl, rfl, rfl, rfl, by intro e he; simp at he; exact ⟨_, he⟩⟩
      · rw [if_neg h2]
        exact ⟨rfl, rfl, rfl, rfl, by intro e he; cases he⟩

lemma loopIter_paused (input : Option (List Char)) (b : Bool) (s : SysState)
    (h : (checkForStopOrGo input s).1.isPaused = true) :
    loopIter input b s = checkForStopOrGo input s := by
  unfold loopIter
  rw [if_pos h]

lemma loopIter_unpaused (input : Option (List Char)) (b : Bool) (s : SysState)
    (h : (checkForStopOrGo input s).1.isPaused = false) :
    loopIter input b s =
      ((waitForNextCycle (sendMessage b (prepareTransmission (checkForStopOrGo input s).1).1).1).1,
        (checkForStopOrGo input s).2 ++
        (prepareTransmission (checkForStopOrGo input s).1).2 ++
        (sendMessage b (prepareTransmission (checkForStopOrGo input s).1).1).2 ++
        (waitForNextCycle (sendMessage b (prepareTransmission (checkForStopOrGo input s).1).1).1).2) := by
  unfold loopIter
  rw [if_neg (by simp [h])]

lemma sendMessage_success (s : SysState) :
    sendMessage true s =
      ({ s with ledPin := false, totalPacketCount := s.totalPacketCount + 1 },
        [Event.displayMessage message, Event.radioSend message true,
         Event.serialPrintln SerialMsg.messageSent,
         Event.digitalWrite LED_PIN true, Event.delayMs 500,
         Event.digitalWrite LED_PIN false,
         Event.displayPacketCount (s.totalPacketCount + 1)]) :=
  rfl

lemma sendMessage_failure (s : SysState) :
    sendMessage false s =
      (s, [Event.displayMessage message, Event.radioSend message false,
           Event.serialPrintln SerialMsg.messageFailed]) :=
  rfl

lemma loopIter_count_mono (input : Option (List Char)) (b : Bool) (s : SysState) :
    s.totalPacketCount ≤ (loopIter input b s).1.totalPacketCount := by
  have hc := (checkForStopOrGo_frame input s).1
  by_cases h : (checkForStopOrGo input s).1.isPaused = true
  · rw [loopIter_paused input b s h, hc]
  · rw [loopIter_unpaused input b s (by revert h; cases (checkForStopOrGo input s).1.isPaused <;> simp)]
    cases b
    · rw [sendMessage_failure]
      exact le_of_eq hc.symm
    · rw [sendMessage_success]
      rw [← hc]
      exact Nat.le_succ _

lemma runLoop_count_mono (steps : List (Option (List Char) × Bool)) :
    ∀ s : SysState, s.totalPacketCount ≤ (runLoop steps s).totalPacketCount := by
  induction steps with
  | nil => intro s; exact Nat.le_refl _
  | cons st rest ih =>
    intro s
    exact le_trans (loopIter_count_mono st.1 st.2 s) (ih _)

lemma loopIter_isPaused (input : Option (List Char)) (b : Bool) (s : SysState) :
    (loopIter input b s).1.isPaused = (checkForStopOrGo input s).1.isPaused := by
  by_cases h : (checkForStopOrGo input s).1.isPaused = true
  · rw [loopIter_paused input b s h]
  · have h' : (checkForStopOrGo input s).1.isPaused = false := by
      revert h; cases (checkForStopOrGo input s).1.isPaused <;> simp
    rw [loopIter_unpaused input b s h']
    cases b <;> rfl

/-- C3: Postcondition of one transmit cycle.  On a successful send the
packet counter increases by exactly 1 and the indicator pulse of 500 ms
occurs (LED high, 500 ms delay, LED low); on a failed send the counter
is unchanged and no pulse occurs; in both cases the cycle continues to
the identical sleep sequence (the `waitForNextCycle` trace is a suffix
of the iteration trace for either outcome, with no retry).  Over any
run of the loop the counter never decreases and is never reset. -/
theorem C3_transmit_cycle_postcondition
    (s : SysState) (input : Option (List Char))
    (steps : List (Option (List Char) × Bool))
    (hrun : (checkForStopOrGo input s).1.isPaused = false) :
    ((sendMessage true s).1.totalPacketCount = s.totalPacketCount + 1 ∧
      (sendMessage true s).2 =
        [Event.displayMessage message, Event.radioSend message true,
         Event.serialPrintln SerialMsg.messageSent,
         Event.digitalWrite LED_PIN true, Event.delayMs 500,
         Event.digitalWrite LED_PIN false,
         Event.displayPacketCount (s.totalPacketCount + 1)]) ∧
    ((sendMessage false s).1.totalPacketCount = s.totalPacketCount ∧
      (sendMessage false s).2 =
        [Event.displayMessage message, Event.radioSend message false,
         Event.serialPrintln SerialMsg.messageFailed]) ∧
    (List.IsSuffix (waitForNextCycle s).2 (loopIter input true s).2 ∧
     List.IsSuffix (waitForNextCycle s).2 (loopIter input false s).2) ∧
    s.totalPacketCount ≤ (runLoop steps s).totalPacketCount := by
  refine ⟨⟨?_, ?_⟩, ⟨?_, ?_⟩, ⟨?_, ?_⟩, runLoop_count_mono steps s⟩
  · rw [sendMessage_success]
  · rw [sendMessage_success]
  · rw [sendMessage_failure]
  · rw [sendMessage_failure]
  · rw [loopIter_unpaused input true s hrun]
    exact ⟨_, rfl⟩
  · rw [loopIter_unpaused input false s hrun]
    exact ⟨_, rfl⟩

theorem C3_transmit_cycle_postcondition_witness :
    (sendMessage true initState).1.totalPacketCount = initState.totalPacketCount + 1 :=
  (C3_transmit_cycle_postcondition initState none [] (by decide)).1.1

/-- C5: The sleep phase first puts the radio to sleep, then drives the
load switch low and the LED low, then performs exactly 12 power-down
steps of 250 ms each (12 × 250 ms = 3000 ms, i.e. 3 time-units) rather
than one long sleep; the resulting state has both output lines low and
everything else unchanged, ready for the next cycle. -/
theorem C5_sleep_phase_structure (s : SysState) :
    (waitForNextCycle s).2 =
      [Event.serialPrintln SerialMsg.sleepEntering, Event.radioSleep,
       Event.digitalWrite SWITCH_PIN false, Event.digitalWrite LED_PIN false] ++
      List.replicate 12 (Event.powerDownStep 250) ∧
    (waitForNextCycle s).2.count (Event.powerDownStep 250) = 12 ∧
    12 * 250 = 3000 ∧
    (waitForNextCycle s).1 = { s with switchPin := false, ledPin := false } := by
  refine ⟨rfl, ?_, rfl, rfl⟩
  rfl

/-- C6: Command handling.  A line whose normalization (trim plus
case-insensitive comparison) equals `"STOP"` sets the pause flag, one
equal to `"GO"` clears it, any other line leaves the whole state
unchanged; consequently processing the command sequence
`["STOP", "GO", "STOP"]` over three loop cycles, from any initial flag
value and any send outcomes, yields the pause-flag sequence
`[true, false, true]` at the cycle boundaries. -/
theorem C6_stop_go_command_mapping
    (s : SysState) (other : List Char) (b1 b2 b3 : Bool)
    (h1 : eqIgnoreCase (trimLine other) cmdSTOP = false)
    (h2 : eqIgnoreCase (trimLine other) cmdGO = false) :
    (∀ t : SysState, ∀ l : List Char, eqIgnoreCase (trimLine l) cmdSTOP = true →
      (checkForStopOrGo (some l) t).1.isPaused = true) ∧
    (∀ t : SysState, ∀ l : List Char,
      eqIgnoreCase (trimLine l) cmdSTOP = false → eqIgnoreCase (trimLine l) cmdGO = true →
      (checkForStopOrGo (some l) t).1.isPaused = false) ∧
    checkForStopOrGo (some other) s = (s, []) ∧
    ((loopIter (some cmdSTOP) b1 s).1.isPaused = true ∧
     (loopIter (some cmdGO) b2 (loopIter (some cmdSTOP) b1 s).1).1.isPaused = false ∧
     (loopIter (some cmdSTOP) b3
       (loopIter (some cmdGO) b2 (loopIter (some cmdSTOP) b1 s).1).1).1.isPaused = true) := by
  refine ⟨?_, ?_, checkForStopOrGo_other s other h1 h2, ?_, ?_, ?_⟩
  · intro t l hl
    simp only [checkForStopOrGo]
    rw [if_pos hl]
  · intro t l hl1 hl2
    simp only [checkForStopOrGo]
    rw [if_neg (by simp [hl1]), if_pos hl2]
  · rw [loopIter_isPaused, checkForStopOrGo_stop]
  · rw [loopIter_isPaused, checkForStopOrGo_go]
  · rw [loopIter_isPaused, checkForStopOrGo_stop]

theorem C6_stop_go_command_mapping_witness :
    checkForStopOrGo (some ['X']) initState = (initState, []) :=
  (C6_stop_go_command_mapping initState ['X'] false false false
    (by decide) (by decide)).2.2.1

/-- C7: If the radio's `init` reports failure during initialization,
the process halts permanently (the result is `halted` and the trace
ends at the failure report — no subsequent operation runs);
initialization returns normally (result `ok`) when `init` succeeds; and
for either outcome the reset line is pulsed (driven low, 10 ms delay,
driven high, 10 ms delay) before `init` is called. -/
theorem C7_init_failure_halts (s : SysState) :
    initializeRF95Module false s =
      InitResult.halted
        [Event.pinModeOutput RFM95_RST, Event.digitalWrite RFM95_RST true,
         Event.digitalWrite RFM95_RST false, Event.delayMs 10,
         Event.digitalWrite RFM95_RST true, Event.delayMs 10,
         Event.radioInit false, Event.serialPrintln SerialMsg.rf95InitFailed] ∧
    (∃ t es, initializeRF95Module true s = InitResult.ok t es) ∧
    ∀ ok : Bool, ∃ tail,
      (initializeRF95Module ok s).events =
        [Event.pinModeOutput RFM95_RST, Event.digitalWrite RFM95_RST true,
         Event.digitalWrite RFM95_RST false, Event.delayMs 10,
         Event.digitalWrite RFM95_RST true, Event.delayMs 10,
         Event.radioInit ok] ++ tail := by
  refine ⟨rfl, ⟨_, _, rfl⟩, ?_⟩
  intro ok
  cases ok
  · exact ⟨_, rfl⟩
  · exact ⟨_, rfl⟩

/-- C8 counterexample: starting from all-zero registers, the first
`enableCRC` leaves register 0x1E holding 4 (bit 2 set); the second
application does not change the register value, yet it still performs a
bus write (`spiWrite 0x1E 4` is in its trace) — refuting "writes back
only if the value changed, so applying it a second time ... performs no
redundant bus write". -/
theorem C8_enableCRC_counterexample :
    (enableCRC (enableCRC initState).1).1.regs 0x1E = (enableCRC initState).1.regs 0x1E ∧
    (enableCRC (enableCRC initState).1).2 =
      [Event.spiRead 0x1E 4, Event.spiWrite 0x1E 4] := by
  decide

/-- C8 (amended): `enableCRC` reads register 0x1E, sets bit 2, and
writes the value back unconditionally.  It is idempotent on the
register value — a second application leaves the register unchanged —
but the second application still performs a (redundant) bus write of
the very same value it read. -/
theorem C8_enableCRC_idempotent_value_unconditional_write (s : SysState) :
    Nat.testBit ((enableCRC s).1.regs 0x1E) 2 = true ∧
    (enableCRC (enableCRC s).1).1.regs 0x1E = (enableCRC s).1.regs 0x1E ∧
    (enableCRC (enableCRC s).1).2 =
      [Event.spiRead 0x1E ((enableCRC s).1.regs 0x1E),
       Event.spiWrite 0x1E ((enableCRC s).1.regs 0x1E)] := by
  have h1 : (enableCRC s).1.regs 0x1E = (s.regs 0x1E ||| 4) % 256 := by
    rw [enableCRC_eq]
    dsimp only
    exact writeReg_same _ _ _
  have hbit : Nat.testBit ((s.regs 0x1E ||| 4) % 256) 2 = true := testBit2_after_or4 _
  have hid : (s.regs 0x1E ||| 4) % 256 ||| 4 = (s.regs 0x1E ||| 4) % 256 :=
    or4_of_testBit2 hbit
  have hlt : (s.regs 0x1E ||| 4) % 256 < 256 := Nat.mod_lt _ (by norm_num)
  refine ⟨?_, ?_, ?_⟩
  · rw [h1]
    exact hbit
  · rw [enableCRC_eq ((enableCRC s).1)]
    dsimp only
    rw [writeReg_same, h1, hid, Nat.mod_eq_of_lt hlt]
  · rw [enableCRC_eq ((enableCRC s).1)]
    dsimp only
    rw [h1, hid]

/-- C10 counterexample: with the pause flag true at the start of an
iteration and a pending `"GO"` line, the very same iteration attempts a
transmission and increments the packet counter — refuting "while
PauseFlag is true, one iteration of the outer loop modifies nothing
except possibly PauseFlag itself". -/
theorem C10_pause_frame_counterexample :
    ({ initState with isPaused := true }).isPaused = true ∧
    (loopIter (some cmdGO) true { initState with isPaused := true }).1.totalPacketCount ≠
      ({ initState with isPaused := true }).totalPacketCount ∧
    Event.radioSend message true ∈
      (loopIter (some cmdGO) true { initState with isPaused := true }).2 := by
  decide

/-- C10 (amended): if PauseFlag is true at the start of an iteration
and the command check leaves it true (no `"GO"` line is processed),
then the iteration is exactly the command check: no transmission, the
counter, registers, load-switch and LED states are unchanged, and
every event of the iteration is a console message. -/
theorem C10_paused_iteration_only_command_check
    (s : SysState) (input : Option (List Char)) (b : Bool)
    (_hp : s.isPaused = true)
    (hstill : (checkForStopOrGo input s).1.isPaused = true) :
    loopIter input b s = checkForStopOrGo input s ∧
    (loopIter input b s).1.totalPacketCount = s.totalPacketCount ∧
    (loopIter input b s).1.regs = s.regs ∧
    (loopIter input b s).1.switchPin = s.switchPin ∧
    (loopIter input b s).1.ledPin = s.ledPin ∧
    ∀ e ∈ (loopIter input b s).2, ∃ m, e = Event.serialPrintln m := by
  have h := loopIter_paused input b s hstill
  have hf := checkForStopOrGo_frame input s
  rw [h]
  exact ⟨rfl, hf.1, hf.2.1, hf.2.2.1, hf.2.2.2.1, hf.2.2.2.2⟩

theorem C10_paused_iteration_only_command_check_witness :
    loopIter none false { initState with isPaused := true } =
      checkForStopOrGo none { initState with isPaused := true } :=
  (C10_paused_iteration_only_command_check { initState with isPaused := true } none false
    (by decide) (by decide)).1
